import Mathlib

/-
Verification of the natural-language specification of
custom_components/eufy_security/coordinator.py (EufySecurityDataUpdateCoordinator)
against a shallow embedding of its code.

JSON payloads are modelled by the inductive JValue; Python dicts whose keys are
strings are modelled by association lists (List (String × _)) with Python dict
semantics: lookup finds the first binding, assignment replaces the first binding
in place (keeping its position) or appends a new one at the end, matching CPython
insertion-order behaviour. Operations that can raise (KeyError / TypeError on a
dict index) return Option / Except, with none / error standing for the raised
exception.
-/

set_option autoImplicit false

/-- A JSON value as delivered by message.json() in on_message. -/
inductive JValue where
  | str : String → JValue
  | num : Int → JValue
  | bool : Bool → JValue
  | null : JValue
  | arr : List JValue → JValue
  | obj : List (String × JValue) → JValue

/-- Python dict lookup d[k] on a string-keyed dict: first binding wins. -/
def alookup {α : Type} : List (String × α) → String → Option α
  | [], _ => none
  | (k, v) :: rest, key => if k = key then some v else alookup rest key

/-- Python dict assignment d[k] = v: replace the first binding in place
(keeping its position, as CPython does) or append a new binding at the end. -/
def aset {α : Type} : List (String × α) → String → α → List (String × α)
  | [], key, v => [(key, v)]
  | (k, w) :: rest, key, v =>
    if k = key then (key, v) :: rest else (k, w) :: aset rest key v

/-- Python j[k] on an arbitrary JSON value: none models the KeyError raised for a
missing key as well as the TypeError raised when j is not a dict. -/
def alookupJ (j : JValue) (k : String) : Option JValue :=
  match j with
  | JValue.obj fields => alookup fields k
  | _ => none

/-- Python equality test of a JSON value against a Python str (v == s):
true exactly when v is the same string. -/
def JValue.isStr (v : JValue) (s : String) : Bool :=
  match v with
  | JValue.str s2 => s2 = s
  | _ => false

/-- Python value.replace with a NUL pattern and empty replacement
(coordinator.py line 190): removes every NUL character of the string. -/
def stripNul (s : String) : String :=
  String.mk (s.data.filter (fun c => c != Char.ofNat 0))

/-- The value actually stored by set_cache_value_for_property
(coordinator.py lines 189-190): strings lose their NUL characters, any other
value is kept exactly as given (the isinstance check). -/
def stripValue (value : JValue) : JValue :=
  match value with
  | JValue.str s => JValue.str (stripNul s)
  | v => v

/-- Per-serial property map inside self.data\x5b"cache"\x5d. -/
abbrev PropMap := List (String × JValue)

/-- The coordinator state relevant to the claims (coordinator.py lines 54-58):
self.data\x5b"data"\x5d (live snapshot, an arbitrary JSON value since it is replaced
wholesale by the wire payload), self.data\x5b"cache"\x5d (property cache, only ever
written by set_cache_value_for_property, hence a dict of dicts), and the two
session flags. -/
structure CoordState where
  data_data : JValue
  data_cache : List (String × PropMap)
  start_listening_state : Bool
  poll_refresing_state : Bool

/-- The for-loop of set_data_value_for_property (coordinator.py lines 174-180):
scan the entity list, set the property on the first entity whose serialNumber
equals the given serial, then break; entities after the first match are never
examined. none models the KeyError / TypeError raised when a scanned entity is
not a dict or lacks a serialNumber key. -/
def scanEntities (serial prop : String) (value : JValue) : List JValue → Option (List JValue)
  | [] => some []
  | e :: rest =>
    match e with
    | JValue.obj fields =>
      match alookup fields "serialNumber" with
      | none => none
      | some sv =>
        if sv.isStr serial then some (JValue.obj (aset fields prop value) :: rest)
        else (scanEntities serial prop value rest).map (fun es => e :: es)
    | _ => none

/-- set_data_value_for_property (coordinator.py lines 167-180). The indexing
self.data\x5b"data"\x5d\x5bsources\x5d raises (none) when the live snapshot is not a dict
or lacks the collection; iterating a non-list collection value is likewise
modelled as an error. -/
def set_data_value_for_property (st : CoordState) (sources serial_number property_name : String)
    (value : JValue) : Option CoordState :=
  match st.data_data with
  | JValue.obj fields =>
    match alookup fields sources with
    | some (JValue.arr entities) =>
      (scanEntities serial_number property_name value entities).map
        (fun es => { st with data_data := JValue.obj (aset fields sources (JValue.arr es)) })
    | _ => none
  | _ => none

/-- set_cache_value_for_property (coordinator.py lines 182-194): strip NULs from
string values, lazily create the per-serial map, set the property. The sources
argument is accepted and never used, exactly as in the source. Always succeeds. -/
def set_cache_value_for_property (st : CoordState) (sources serial_number property_name : String)
    (value : JValue) : CoordState :=
  let v := stripValue value
  let m := match alookup st.data_cache serial_number with
    | none => []
    | some m => m
  { st with data_cache := aset st.data_cache serial_number (aset m property_name v) }

/-- The while loop shared by check_if_started_listening (coordinator.py lines
87-96) and check_if_poll_refreshed (lines 106-112). obs n is the value the
polled flag has at the nth evaluation of the while condition (the flag may be
flipped concurrently by on_message, so it is an arbitrary trajectory). Returns
the boolean result together with the number of one-second sleeps performed.
The fuel argument only makes the recursion structural: every entry point calls
it with fuel 6 and counter 0, and the loop always exits through the counter
guard (counter + 1 > 5) before the fuel is exhausted. -/
def check_flag_loop (obs : Nat → Bool) (to_be_value : Bool) : Nat → Nat → Bool × Nat
  | 0, counter => (false, counter)
  | fuel + 1, counter =>
    if obs counter = to_be_value then (true, counter)
    else if counter + 1 > 5 then (false, counter + 1)
    else check_flag_loop obs to_be_value fuel (counter + 1)

/-- check_if_started_listening (coordinator.py lines 81-96): run the polling
loop on the start_listening_state trajectory. -/
def check_if_started_listening (obs : Nat → Bool) (to_be_value : Bool) : Bool × Nat :=
  check_flag_loop obs to_be_value 6 0

/-- check_if_poll_refreshed (coordinator.py lines 103-112): the same loop on the
poll_refresing_state trajectory. -/
def check_if_poll_refreshed (obs : Nat → Bool) (to_be_value : Bool) : Bool × Nat :=
  check_flag_loop obs to_be_value 6 0

/-- Modelled from the spec: const.py is not under src/. The spec says only the
"result" and "event" discriminators are processed. -/
def MESSAGE_TYPES_TO_PROCESS : List String := ["result", "event"]

/-- Modelled from the spec: const.py is not under src/. The spec says only the
"start_listening" and "poll_refresh" message ids are recognized. -/
def MESSAGE_IDS_TO_PROCESS : List String := ["start_listening", "poll_refresh"]

/-- One row of the event classification table: default property name, the
field holding the property value, and whether the update targets the cache. -/
structure EventConf where
  name : String
  value : String
  is_cached : Bool

/-- Modelled from the spec: const.py (EVENT_TYPE_CONFIGURATION) is not under
src/. The spec gives the row shape and the single documented example row,
motion_detected with value field "state" and is_cached false; only that
documented row is included here. -/
def EVENT_TYPE_CONFIGURATION : List (String × EventConf) :=
  [("motion_detected", ⟨"motion_detected", "state", false⟩)]

/-- Modelled from the spec: const.py is not under src/; the spec says the poll
refresh command is a fixed object with no parameters (its exact fields are not
recorded, and no claim depends on them). -/
def POLL_REFRESH_MESSAGE : JValue :=
  JValue.obj [("command", JValue.str "driver.poll_refresh")]

/-- Modelled from the spec: const.py is not under src/; the spec says the start
listening command is a fixed object with no parameters. -/
def START_LISTENING_MESSAGE : JValue :=
  JValue.obj [("command", JValue.str "start_listening")]

/-- Python membership test of a JSON value in a list of strings (v in l):
non-string values are never members. -/
def strMember (v : JValue) (l : List String) : Bool :=
  l.any (fun s => v.isStr s)

/-- on_message (coordinator.py lines 114-165). Returns the new coordinator
state together with a flag telling whether async_set_updated_data was reached
(the published-state notification at line 165); Except.error models an
uncaught exception escaping on_message (KeyError on a missing field, TypeError
on indexing a non-dict or concatenating a non-string source). The membership
test on EVENT_TYPE_CONFIGURATION.keys() at line 139 hashes its operand, so an
event-type value that is a JSON array or object raises TypeError (error here),
while other non-string values are hashable non-members and fall through to the
silent-ignore return. Non-string serialNumber and name values inside
recognized events are not modelled (the source type-annotates both as str)
and map to error. -/
def on_message (st : CoordState) (payload : JValue) : Except Unit (CoordState × Bool) :=
  match alookupJ payload "type" with
  | none => Except.error ()
  | some t =>
    if strMember t MESSAGE_TYPES_TO_PROCESS = false then Except.ok (st, false)
    else if t.isStr "result" then
      match alookupJ payload "result" with
      | none => Except.error ()
      | some message =>
        match alookupJ payload "messageId" with
        | none => Except.error ()
        | some message_id =>
          if strMember message_id MESSAGE_IDS_TO_PROCESS = false then Except.ok (st, false)
          else if message_id.isStr "start_listening" then
            match alookupJ message "state" with
            | none => Except.error ()
            | some s =>
              Except.ok ({ st with data_data := s, start_listening_state := true }, true)
          else
            Except.ok ({ st with poll_refresing_state := true }, false)
    else
      match alookupJ payload "event" with
      | none => Except.error ()
      | some message =>
        match alookupJ message "event" with
        | none => Except.error ()
        | some event_type =>
          match alookupJ message "source" with
          | some (JValue.str src) =>
            match alookupJ message "serialNumber" with
            | none => Except.error ()
            | some serialJ =>
              match event_type with
              | JValue.str ev =>
                match alookup EVENT_TYPE_CONFIGURATION ev with
                | none => Except.ok (st, false)
                | some conf =>
                  match serialJ with
                  | JValue.str serial =>
                    match (match alookupJ message "name" with
                           | some (JValue.str n) => some n
                           | some _ => none
                           | none => some conf.name) with
                    | none => Except.error ()
                    | some pname =>
                      match alookupJ message conf.value with
                      | none => Except.error ()
                      | some v =>
                        if conf.is_cached then
                          Except.ok (set_cache_value_for_property st (src ++ "s") serial pname v, true)
                        else
                          match set_data_value_for_property st (src ++ "s") serial pname v with
                          | none => Except.error ()
                          | some st1 => Except.ok (st1, true)
                  | _ => Except.error ()
              | JValue.arr _ => Except.error ()
              | JValue.obj _ => Except.error ()
              | _ => Except.ok (st, false)
          | some _ => Except.error ()
          | none => Except.error ()

/-- async_poll_refresh (coordinator.py lines 224-226): reset the
poll_refresing_state flag, then send POLL_REFRESH_MESSAGE (returned as the
message handed to the transport). -/
def async_poll_refresh (st : CoordState) : CoordState × JValue :=
  ({ st with poll_refresing_state := false }, POLL_REFRESH_MESSAGE)

/-- async_start_listening (coordinator.py lines 220-222): reset the
start_listening_state flag, then send START_LISTENING_MESSAGE. -/
def async_start_listening (st : CoordState) : CoordState × JValue :=
  ({ st with start_listening_state := false }, START_LISTENING_MESSAGE)

/-- The refresh tick _async_update_data (coordinator.py lines 207-215): call
async_poll_refresh, wait on the flag, raise UpdateFailed (Except.error) when
the wait returns false, otherwise return self.data, which holds both the live
snapshot and the property cache. Returns the coordinator state as left by this
sequential slice, the list of messages sent to the transport, and the outcome.
obs is the flag trajectory observed by the polling wait (the flag is flipped
concurrently by on_message). -/
def _async_update_data (st : CoordState) (obs : Nat → Bool) :
    CoordState × List JValue × Except Unit (JValue × List (String × PropMap)) :=
  let p := async_poll_refresh st
  if (check_if_poll_refreshed obs true).1 = true then
    (p.1, [p.2], Except.ok (p.1.data_data, p.1.data_cache))
  else
    (p.1, [p.2], Except.error ())

/-- initialize_ws (coordinator.py lines 60-74): connect the transport
(external, not modelled), call async_start_listening once, wait on the flag,
and raise (Except.error, the initialization timeout) exactly when the wait
returns false. No retry is attempted: the message list records every send. -/
def initialize_ws (st : CoordState) (obs : Nat → Bool) :
    CoordState × List JValue × Except Unit Unit :=
  let p := async_start_listening st
  if (check_if_started_listening obs true).1 = true then (p.1, [p.2], Except.ok ())
  else (p.1, [p.2], Except.error ())

/-- Modelled from the spec: generated.py (the DeviceType enum) is not under
src/. get_device_type_name only distinguishes STATION from every other member,
so a few representative members suffice. -/
inductive DeviceType where
  | STATION : DeviceType
  | CAMERA : DeviceType
  | SENSOR : DeviceType
deriving DecidableEq

/-- get_device_type_name (coordinator.py lines 254-259). -/
def get_device_type_name (device_type : DeviceType) : String :=
  if device_type = DeviceType.STATION then "station" else "device"

/-- Python str.format with a single positional argument, on templates holding
at most one positional placeholder (open brace immediately followed by close
brace): replace the first placeholder with the argument, leave a template
without placeholder unchanged. -/
def replaceBraces (arg : List Char) : List Char → List Char
  | [] => []
  | [c] => [c]
  | c1 :: c2 :: rest =>
    if c1 = Char.ofNat 123 then
      if c2 = Char.ofNat 125 then arg ++ rest
      else c1 :: replaceBraces arg (c2 :: rest)
    else c1 :: replaceBraces arg (c2 :: rest)

/-- str.format lifted to String. -/
def pyFormat (template arg : String) : String :=
  String.mk (replaceBraces arg.data template.data)

/-- Modelled from the spec: const.py is not under src/; §6 of the spec gives
the get-properties template with a substitutable device/station segment. -/
def GET_PROPERTIES_MESSAGE : List (String × JValue) :=
  [("command", JValue.str "\x7b\x7d.get_properties")]

/-- Modelled from the spec: the metadata variant of the same template. -/
def GET_PROPERTIES_METADATA_MESSAGE : List (String × JValue) :=
  [("command", JValue.str "\x7b\x7d.get_properties_metadata")]

/-- async_get_properties_for_device (coordinator.py lines 238-246). message is
the module-level GET_PROPERTIES_MESSAGE dict: the function aliases it, formats
its command string in place and sets serialNumber, so the mutated dict is both
the message sent and the template seen by the next call. Returns (new template
state, sent message); none models the failure of message\x5b"command"\x5d.format
when the command entry is missing or not a string (unreachable from the
initial template). -/
def async_get_properties_for_device (message : List (String × JValue))
    (device_type : DeviceType) (serial_no : String) :
    Option (List (String × JValue) × List (String × JValue)) :=
  match alookup message "command" with
  | some (JValue.str c) =>
    let c1 := pyFormat c (get_device_type_name device_type)
    let m1 := aset (aset message "command" (JValue.str c1)) "serialNumber" (JValue.str serial_no)
    some (m1, m1)
  | _ => none

/-- async_get_properties_metadata_for_device (coordinator.py lines 228-236):
identical to async_get_properties_for_device on the metadata template. -/
def async_get_properties_metadata_for_device (message : List (String × JValue))
    (device_type : DeviceType) (serial_no : String) :
    Option (List (String × JValue) × List (String × JValue)) :=
  match alookup message "command" with
  | some (JValue.str c) =>
    let c1 := pyFormat c (get_device_type_name device_type)
    let m1 := aset (aset message "command" (JValue.str c1)) "serialNumber" (JValue.str serial_no)
    some (m1, m1)
  | _ => none

/-- An entity record that does not match the scanned serial: a dict holding a
serialNumber key whose value is not the string serial. The linear scan of
set_data_value_for_property passes over exactly such records. -/
def entityNoMatch (serial : String) (e : JValue) : Prop :=
  ∃ f sv, e = JValue.obj f ∧ alookup f "serialNumber" = some sv ∧ sv.isStr serial = false

/-- Coordinator state right after __init__ (coordinator.py lines 54-58):
empty snapshot, empty cache, both flags false. -/
def initState : CoordState := ⟨JValue.obj [], [], false, false⟩

/-- Concrete entity record for witnesses: device D1. -/
def entD1 : List (String × JValue) :=
  [("serialNumber", JValue.str "D1"), ("name", JValue.str "Cam1")]

/-- Concrete entity record for witnesses: device D2. -/
def entD2 : List (String × JValue) :=
  [("serialNumber", JValue.str "D2")]

/-- Concrete live state with two devices and an empty stations collection. -/
def twoDeviceFields : List (String × JValue) :=
  [("devices", JValue.arr [JValue.obj entD1, JValue.obj entD2]),
   ("stations", JValue.arr [])]

/-- Concrete coordinator state holding twoDeviceFields. -/
def twoDeviceState : CoordState := ⟨JValue.obj twoDeviceFields, [], true, false⟩

/-- twoDeviceState after setting motion_detected to true on D1. -/
def twoDeviceStateUpd : CoordState :=
  ⟨JValue.obj
    [("devices", JValue.arr
      [JValue.obj [("serialNumber", JValue.str "D1"), ("name", JValue.str "Cam1"),
                   ("motion_detected", JValue.bool true)],
       JValue.obj entD2]),
     ("stations", JValue.arr [])], [], true, false⟩

/-- Concrete coordinator state whose devices collection holds only D2. -/
def onlyD2State : CoordState :=
  ⟨JValue.obj [("devices", JValue.arr [JValue.obj entD2])], [], false, false⟩

/-- The start_listening result scenario payload of the spec (§8). -/
def exampleStateObj : JValue :=
  JValue.obj [("devices", JValue.arr [JValue.obj entD1])]

/-- The full start_listening result message of the spec scenario. -/
def examplePayload : JValue :=
  JValue.obj [("type", JValue.str "result"), ("messageId", JValue.str "start_listening"),
              ("result", JValue.obj [("state", exampleStateObj)])]

/-- A poll_refresh result message. -/
def pollRefreshPayload : JValue :=
  JValue.obj [("type", JValue.str "result"), ("messageId", JValue.str "poll_refresh"),
              ("result", JValue.obj [])]

/-- A result message with an unrecognized messageId (spec §8 scenario). -/
def unknownIdPayload : JValue :=
  JValue.obj [("type", JValue.str "result"), ("messageId", JValue.str "unknown_id"),
              ("result", JValue.obj [])]

/-- A message with an unrecognized type discriminator. -/
def unknownTypePayload : JValue :=
  JValue.obj [("type", JValue.str "version")]

/-- An event message whose event type is not in the classification table. -/
def unknownEventPayload : JValue :=
  JValue.obj [("type", JValue.str "event"),
              ("event", JValue.obj
                [("event", JValue.str "person_not_detected"),
                 ("source", JValue.str "device"),
                 ("serialNumber", JValue.str "D1")])]

theorem alookup_aset_self {α : Type} (l : List (String × α)) (k : String) (v : α) :
    alookup (aset l k v) k = some v := by
  induction l with
  | nil => simp [aset, alookup]
  | cons p rest ih =>
    obtain ⟨k2, w⟩ := p
    by_cases h : k2 = k
    · subst h; simp [aset, alookup]
    · simp [aset, alookup, h, ih]

theorem alookup_aset_ne {α : Type} (l : List (String × α)) (k k2 : String) (v : α)
    (h : k2 ≠ k) : alookup (aset l k v) k2 = alookup l k2 := by
  induction l with
  | nil => simp [aset, alookup, Ne.symm h]
  | cons p rest ih =>
    obtain ⟨k3, w⟩ := p
    by_cases h3 : k3 = k
    · subst h3; simp [aset, alookup, Ne.symm h]
    · simp [aset, alookup, h3, ih]

theorem aset_aset_same {α : Type} (l : List (String × α)) (k : String) (v : α) :
    aset (aset l k v) k v = aset l k v := by
  induction l with
  | nil => simp [aset]
  | cons p rest ih =>
    obtain ⟨k2, w⟩ := p
    by_cases h : k2 = k
    · subst h; simp [aset]
    · simp [aset, h, ih]

theorem aset_eq_self {α : Type} (l : List (String × α)) (k : String) (v : α)
    (h : alookup l k = some v) : aset l k v = l := by
  induction l with
  | nil => simp [alookup] at h
  | cons p rest ih =>
    obtain ⟨k2, w⟩ := p
    by_cases h2 : k2 = k
    · subst h2; simp [alookup] at h; simp [aset, h]
    · simp [alookup, h2] at h; simp [aset, h2, ih h]

theorem aset_append_of_absent {α : Type} (l : List (String × α)) (k : String) (v : α)
    (h : alookup l k = none) : aset l k v = l ++ [(k, v)] := by
  induction l with
  | nil => simp [aset]
  | cons p rest ih =>
    obtain ⟨k2, w⟩ := p
    by_cases h2 : k2 = k
    · subst h2; simp [alookup] at h
    · simp [alookup, h2] at h; simp [aset, h2, ih h]

theorem scanEntities_no_match (serial prop : String) (value : JValue) (l : List JValue)
    (h : ∀ e ∈ l, entityNoMatch serial e) :
    scanEntities serial prop value l = some l := by
  induction l with
  | nil => rfl
  | cons e rest ih =>
    obtain ⟨f, sv, he, hsv, hm⟩ := h e (List.mem_cons_self e rest)
    subst he
    simp [scanEntities, hsv, hm, ih (fun x hx => h x (List.mem_cons_of_mem _ hx))]

theorem scanEntities_first_match (serial prop : String) (value : JValue)
    (pre post : List JValue) (ef : List (String × JValue)) (sv : JValue)
    (hpre : ∀ e ∈ pre, entityNoMatch serial e)
    (hsv : alookup ef "serialNumber" = some sv) (hm : sv.isStr serial = true) :
    scanEntities serial prop value (pre ++ JValue.obj ef :: post) =
      some (pre ++ JValue.obj (aset ef prop value) :: post) := by
  induction pre with
  | nil => simp [scanEntities, hsv, hm]
  | cons e rest ih =>
    obtain ⟨f, sv2, he, hsv2, hm2⟩ := hpre e (List.mem_cons_self e rest)
    subst he
    simp [scanEntities, hsv2, hm2, ih (fun x hx => hpre x (List.mem_cons_of_mem _ hx))]

theorem check_flag_loop_success (obs : Nat → Bool) (to_be_value : Bool) (n : Nat) :
    ∀ fuel counter, counter ≤ n → n < counter + fuel → n ≤ 5 → obs n = to_be_value →
      (∀ m, counter ≤ m → m < n → obs m ≠ to_be_value) →
      check_flag_loop obs to_be_value fuel counter = (true, n) := by
  intro fuel
  induction fuel with
  | zero => intro counter h1 h2 _ _ _; exfalso; omega
  | succ fuel ih =>
    intro counter h1 h2 h5 hn hbefore
    by_cases hc : counter = n
    · subst hc; simp [check_flag_loop, hn]
    · have hlt : counter < n := lt_of_le_of_ne h1 hc
      have hobs : obs counter ≠ to_be_value := hbefore counter le_rfl hlt
      have hguard : ¬ (counter + 1 > 5) := by omega
      simp [check_flag_loop, hobs, hguard]
      exact ih (counter + 1) (by omega) (by omega) h5 hn
        (fun m hm1 hm2 => hbefore m (by omega) hm2)

theorem check_flag_loop_timeout (obs : Nat → Bool) (to_be_value : Bool) :
    ∀ fuel counter, counter + fuel = 6 → counter ≤ 5 →
      (∀ m, m ≤ 5 → obs m ≠ to_be_value) →
      check_flag_loop obs to_be_value fuel counter = (false, 6) := by
  intro fuel
  induction fuel with
  | zero => intro counter h1 h2 _; exfalso; omega
  | succ fuel ih =>
    intro counter h1 h2 hobs
    have hc : obs counter ≠ to_be_value := hobs counter h2
    by_cases h5 : counter = 5
    · subst h5; simp [check_flag_loop, hc]
    · have hguard : ¬ (counter + 1 > 5) := by omega
      simp [check_flag_loop, hc, hguard]
      exact ih (counter + 1) (by omega) (by omega) hobs

/-- C1 (amended): for both flag waits, if the flag already equals the expected
value the call returns true immediately with zero polls; if the flag first
equals the expected value at poll n with n at most 5, the call returns true at
that poll; and if the flag never equals the expected value, the call returns
false after exactly 6 failed checks and 6 one-second sleeps (the loop exits
once its counter exceeds max_polls = 5), about a 6-second ceiling. -/
theorem wait_flag_behaviour (obs : Nat → Bool) (to_be_value : Bool) :
    (obs 0 = to_be_value →
      check_if_started_listening obs to_be_value = (true, 0) ∧
      check_if_poll_refreshed obs to_be_value = (true, 0)) ∧
    (∀ n, n ≤ 5 → obs n = to_be_value → (∀ m, m < n → obs m ≠ to_be_value) →
      check_if_started_listening obs to_be_value = (true, n) ∧
      check_if_poll_refreshed obs to_be_value = (true, n)) ∧
    ((∀ m, m ≤ 5 → obs m ≠ to_be_value) →
      check_if_started_listening obs to_be_value = (false, 6) ∧
      check_if_poll_refreshed obs to_be_value = (false, 6)) := by
  refine ⟨fun h0 => ?_, fun n hn5 hn hbef => ?_, fun hall => ?_⟩
  · constructor <;>
      simp [check_if_started_listening, check_if_poll_refreshed, check_flag_loop, h0]
  · have h := check_flag_loop_success obs to_be_value n 6 0 (Nat.zero_le n) (by omega) hn5 hn
      (fun m _ hm => hbef m hm)
    exact ⟨h, h⟩
  · have h := check_flag_loop_timeout obs to_be_value 6 0 rfl (by omega) hall
    exact ⟨h, h⟩

/-- C1 counterexample: a flag that never reaches the expected value makes the
wait return false only after 6 failed checks and 6 sleeps, not the 5 failed
checks (5-second ceiling) the claim states. -/
theorem wait_flag_five_polls_refuted :
    check_if_started_listening (fun _ => false) true = (false, 6) ∧ (6 : Nat) ≠ 5 :=
  ⟨rfl, by decide⟩

/-- Witness for wait_flag_behaviour at concrete flag trajectories. -/
theorem wait_flag_behaviour_witness :
    check_if_started_listening (fun _ => true) true = (true, 0) ∧
    check_if_poll_refreshed (fun n => decide (2 ≤ n)) true = (true, 2) ∧
    check_if_poll_refreshed (fun _ => false) true = (false, 6) := by
  refine ⟨?_, ?_, ?_⟩
  · exact ((wait_flag_behaviour (fun _ => true) true).1 rfl).1
  · exact ((wait_flag_behaviour (fun n => decide (2 ≤ n)) true).2.1 2 (by omega) (by decide)
      (by decide)).2
  · exact ((wait_flag_behaviour (fun _ => false) true).2.2 (by decide)).2

/-- C2: every refresh tick resets the poll flag to false, leaves the store
untouched, sends exactly the poll refresh command, fails (UpdateFailed) if and
only if the flag wait returns false, and on success returns the merged state
holding both the live snapshot and the property cache. -/
theorem update_data_tick (st : CoordState) (obs : Nat → Bool) :
    (_async_update_data st obs).1.poll_refresing_state = false ∧
    (_async_update_data st obs).1.data_data = st.data_data ∧
    (_async_update_data st obs).1.data_cache = st.data_cache ∧
    (_async_update_data st obs).2.1 = [POLL_REFRESH_MESSAGE] ∧
    ((_async_update_data st obs).2.2 = Except.error () ↔
      (check_if_poll_refreshed obs true).1 = false) ∧
    ((_async_update_data st obs).2.2 =
      if (check_if_poll_refreshed obs true).1 = true
      then Except.ok ((_async_update_data st obs).1.data_data,
                      (_async_update_data st obs).1.data_cache)
      else Except.error ()) := by
  by_cases h : (check_if_poll_refreshed obs true).1 = true <;>
    simp_all [_async_update_data, async_poll_refresh]

/-- C8: initialize_ws resets the listening flag to false before the single
start-listening send (no internal retry: the transcript holds exactly one
message), leaves the store untouched, and raises the initialization timeout
if and only if the flag wait returns false. -/
theorem initialize_ws_behaviour (st : CoordState) (obs : Nat → Bool) :
    (initialize_ws st obs).1.start_listening_state = false ∧
    (initialize_ws st obs).1.data_data = st.data_data ∧
    (initialize_ws st obs).1.data_cache = st.data_cache ∧
    (initialize_ws st obs).2.1 = [START_LISTENING_MESSAGE] ∧
    ((initialize_ws st obs).2.2 = Except.error () ↔
      (check_if_started_listening obs true).1 = false) := by
  by_cases h : (check_if_started_listening obs true).1 = true <;>
    simp_all [initialize_ws, async_start_listening]

/-- C10: set_cache_value_for_property ignores its sources argument: two calls
differing only in the source collection produce identical states, so cached
properties are keyed by serial number alone, and a device and a station
sharing a serial number write to the same cache entry. -/
theorem cache_ignores_sources (st : CoordState) (s1 s2 serial_number property_name : String)
    (value : JValue) :
    set_cache_value_for_property st s1 serial_number property_name value =
      set_cache_value_for_property st s2 serial_number property_name value := rfl

/-- C9 (code bug): the first get-properties call formats the shared
module-level template in place, so a later call with device type STATION still
sends command "device.get_properties" (the stored command has no placeholder
left for format to substitute) instead of "station.get_properties"; a fresh
first call with STATION does produce "station.get_properties", and the
metadata variant misbehaves the same way. -/
theorem get_properties_stale_template :
    (async_get_properties_for_device GET_PROPERTIES_MESSAGE DeviceType.CAMERA "CAM1").bind
        (fun r => (async_get_properties_for_device r.1 DeviceType.STATION "ST1").map
          (fun r2 => (alookup r2.2 "command", alookup r2.2 "serialNumber")))
      = some (some (JValue.str "device.get_properties"), some (JValue.str "ST1")) ∧
    "device.get_properties" ≠ "station.get_properties" ∧
    (async_get_properties_for_device GET_PROPERTIES_MESSAGE DeviceType.STATION "ST1").map
        (fun r => (alookup r.2 "command", alookup r.2 "serialNumber"))
      = some (some (JValue.str "station.get_properties"), some (JValue.str "ST1")) ∧
    (async_get_properties_metadata_for_device GET_PROPERTIES_METADATA_MESSAGE
        DeviceType.CAMERA "CAM1").bind
        (fun r => (async_get_properties_metadata_for_device r.1 DeviceType.STATION "ST1").map
          (fun r2 => alookup r2.2 "command"))
      = some (some (JValue.str "device.get_properties_metadata")) :=
  ⟨rfl, by decide, rfl, rfl⟩

/-- C5 (amended): an update_live_property call whose serial number is absent
from the named collection leaves the store completely unchanged and raises no
error, provided the named collection exists in the live snapshot and each
record of it is a dict carrying a serialNumber key; if the collection name is
absent from the snapshot, the call instead raises a KeyError (see the
counterexample). -/
theorem live_property_absent_serial_noop (st : CoordState) (fields : List (String × JValue))
    (sources serial_number property_name : String) (value : JValue) (entities : List JValue)
    (hdd : st.data_data = JValue.obj fields)
    (hcoll : alookup fields sources = some (JValue.arr entities))
    (habs : ∀ e ∈ entities, entityNoMatch serial_number e) :
    set_data_value_for_property st sources serial_number property_name value = some st := by
  have h1 : scanEntities serial_number property_name value entities = some entities :=
    scanEntities_no_match serial_number property_name value entities habs
  have h2 : aset fields sources (JValue.arr entities) = fields :=
    aset_eq_self fields sources (JValue.arr entities) hcoll
  simp only [set_data_value_for_property, hdd, hcoll, h1, Option.map_some']
  rw [h2, ← hdd]

/-- C5 counterexample: on the freshly initialized coordinator (whose live
snapshot is an empty dict) the same call raises KeyError (none) for the
collection name it is given, instead of being the silent no-op the claim
states for every collection name. -/
theorem live_property_missing_collection_raises :
    set_data_value_for_property initState "devices" "D1" "motion_detected"
      (JValue.bool true) = none := rfl

/-- Witness for live_property_absent_serial_noop on a concrete store whose
devices collection holds only D2. -/
theorem live_property_absent_serial_noop_witness :
    set_data_value_for_property onlyD2State "devices" "D1" "motion_detected"
      (JValue.bool true) = some onlyD2State :=
  live_property_absent_serial_noop onlyD2State _ "devices" "D1" "motion_detected"
    (JValue.bool true) _ rfl rfl
    (by intro e he; simp at he; subst he; exact ⟨entD2, JValue.str "D2", rfl, rfl, rfl⟩)

/-- C7: set_cache_value_for_property always succeeds; the value stored under
the serial and property is the given value with every NUL character removed
when it is a string and exactly the given value otherwise; and the per-serial
map is created lazily on the first write for that serial (the fresh entry is
appended to the cache). -/
theorem cache_write_behaviour (st : CoordState) (sources serial_number property_name : String)
    (value : JValue) :
    (∃ m, alookup (set_cache_value_for_property st sources serial_number property_name
        value).data_cache serial_number = some m ∧
      alookup m property_name = some (stripValue value)) ∧
    (∀ s, value = JValue.str s → stripValue value = JValue.str (stripNul s)) ∧
    ((∀ s, value ≠ JValue.str s) → stripValue value = value) ∧
    (alookup st.data_cache serial_number = none →
      (set_cache_value_for_property st sources serial_number property_name value).data_cache =
        st.data_cache ++ [(serial_number, [(property_name, stripValue value)])]) := by
  refine ⟨⟨_, alookup_aset_self _ _ _, alookup_aset_self _ _ _⟩, ?_, ?_, ?_⟩
  · intro s hs; subst hs; rfl
  · intro h; cases value <;> first | rfl | exact absurd rfl (h _)
  · intro h
    simp only [set_cache_value_for_property, h]
    exact aset_append_of_absent st.data_cache serial_number _ h

/-- Witness for cache_write_behaviour: the NUL-laden spec example string and a
non-string value, on the freshly initialized state. -/
theorem cache_write_behaviour_witness :
    (∃ m, alookup (set_cache_value_for_property initState "devices" "S1" "p"
        (JValue.str "\x00ab\x00c")).data_cache "S1" = some m ∧
      alookup m "p" = some (JValue.str "abc")) ∧
    stripValue (JValue.str "\x00ab\x00c") = JValue.str (stripNul "\x00ab\x00c") ∧
    stripValue (JValue.num 7) = JValue.num 7 ∧
    (set_cache_value_for_property initState "stations" "S1" "p" (JValue.num 7)).data_cache =
      initState.data_cache ++ [("S1", [("p", stripValue (JValue.num 7))])] := by
  refine ⟨?_, ?_, ?_, ?_⟩
  · exact (cache_write_behaviour initState "devices" "S1" "p" (JValue.str "\x00ab\x00c")).1
  · exact (cache_write_behaviour initState "devices" "S1" "p"
      (JValue.str "\x00ab\x00c")).2.1 _ rfl
  · exact (cache_write_behaviour initState "devices" "S1" "p" (JValue.num 7)).2.2.1
      (fun s h => JValue.noConfusion h)
  · exact (cache_write_behaviour initState "stations" "S1" "p" (JValue.num 7)).2.2.2 rfl

/-- C3: for inbound result messages, messageId start_listening replaces the
entire live snapshot with the result state object, sets the listening flag
and reaches the published-state notification; messageId poll_refresh only
sets the poll-refreshed flag and returns before the notification with no
snapshot change; any other messageId causes no state change and no flag flip. -/
theorem on_message_result_dispatch (st : CoordState) :
    (∀ payload r s, alookupJ payload "type" = some (JValue.str "result") →
      alookupJ payload "result" = some r →
      alookupJ payload "messageId" = some (JValue.str "start_listening") →
      alookupJ r "state" = some s →
      on_message st payload =
        Except.ok ({ st with data_data := s, start_listening_state := true }, true)) ∧
    (∀ payload r, alookupJ payload "type" = some (JValue.str "result") →
      alookupJ payload "result" = some r →
      alookupJ payload "messageId" = some (JValue.str "poll_refresh") →
      on_message st payload =
        Except.ok ({ st with poll_refresing_state := true }, false)) ∧
    (∀ payload r mid, alookupJ payload "type" = some (JValue.str "result") →
      alookupJ payload "result" = some r →
      alookupJ payload "messageId" = some mid →
      mid.isStr "start_listening" = false → mid.isStr "poll_refresh" = false →
      on_message st payload = Except.ok (st, false)) := by
  have houter : strMember (JValue.str "result") MESSAGE_TYPES_TO_PROCESS = true := rfl
  have hres : (JValue.str "result").isStr "result" = true := rfl
  refine ⟨?_, ?_, ?_⟩
  · intro payload r s ht hr hm hs
    have h1 : strMember (JValue.str "start_listening") MESSAGE_IDS_TO_PROCESS = true := rfl
    have h2 : (JValue.str "start_listening").isStr "start_listening" = true := rfl
    simp [on_message, ht, hr, hm, hs, houter, hres, h1, h2]
  · intro payload r ht hr hm
    have h1 : strMember (JValue.str "poll_refresh") MESSAGE_IDS_TO_PROCESS = true := rfl
    have h2 : (JValue.str "poll_refresh").isStr "start_listening" = false := rfl
    simp [on_message, ht, hr, hm, houter, hres, h1, h2]
  · intro payload r mid ht hr hm hm1 hm2
    have h1 : strMember mid MESSAGE_IDS_TO_PROCESS = false := by
      simp [strMember, MESSAGE_IDS_TO_PROCESS, hm1, hm2]
    simp [on_message, ht, hr, hm, houter, hres, h1]

/-- Witness for on_message_result_dispatch: the spec scenario payloads. -/
theorem on_message_result_dispatch_witness :
    on_message initState examplePayload =
      Except.ok
        ({ initState with data_data := exampleStateObj, start_listening_state := true }, true) ∧
    on_message initState pollRefreshPayload =
      Except.ok ({ initState with poll_refresing_state := true }, false) ∧
    on_message initState unknownIdPayload = Except.ok (initState, false) := by
  refine ⟨?_, ?_, ?_⟩
  · exact (on_message_result_dispatch initState).1 examplePayload _ exampleStateObj
      rfl rfl rfl rfl
  · exact (on_message_result_dispatch initState).2.1 pollRefreshPayload _ rfl rfl rfl
  · exact (on_message_result_dispatch initState).2.2 unknownIdPayload _
      (JValue.str "unknown_id") rfl rfl rfl rfl rfl

/-- C4 (amended): messages with an unrecognized type discriminator, an
unrecognized messageId, or an unrecognized event type (a string absent from
the classification table, or any non-string hashable value) are silently
ignored with no state change and no error; however, on_message is not
exception-free: a message missing a required field raises a KeyError (see the
counterexample), and an event message whose event field is a JSON array (or
object) raises a TypeError from the unhashable operand of the membership test
at coordinator.py line 139 (final conjunct). -/
theorem on_message_unrecognized_ignored (st : CoordState) :
    (∀ payload t, alookupJ payload "type" = some t →
      strMember t MESSAGE_TYPES_TO_PROCESS = false →
      on_message st payload = Except.ok (st, false)) ∧
    (∀ payload r mid, alookupJ payload "type" = some (JValue.str "result") →
      alookupJ payload "result" = some r →
      alookupJ payload "messageId" = some mid →
      strMember mid MESSAGE_IDS_TO_PROCESS = false →
      on_message st payload = Except.ok (st, false)) ∧
    (∀ payload m e src serialJ, alookupJ payload "type" = some (JValue.str "event") →
      alookupJ payload "event" = some m →
      alookupJ m "event" = some (JValue.str e) →
      alookupJ m "source" = some (JValue.str src) →
      alookupJ m "serialNumber" = some serialJ →
      alookup EVENT_TYPE_CONFIGURATION e = none →
      on_message st payload = Except.ok (st, false)) ∧
    (∀ payload m ev src serialJ, alookupJ payload "type" = some (JValue.str "event") →
      alookupJ payload "event" = some m →
      alookupJ m "event" = some ev →
      alookupJ m "source" = some (JValue.str src) →
      alookupJ m "serialNumber" = some serialJ →
      (ev = JValue.null ∨ (∃ n, ev = JValue.num n) ∨ (∃ b, ev = JValue.bool b)) →
      on_message st payload = Except.ok (st, false)) ∧
    (∀ payload m l src serialJ, alookupJ payload "type" = some (JValue.str "event") →
      alookupJ payload "event" = some m →
      alookupJ m "event" = some (JValue.arr l) →
      alookupJ m "source" = some (JValue.str src) →
      alookupJ m "serialNumber" = some serialJ →
      on_message st payload = Except.error ()) := by
  have houter2 : strMember (JValue.str "event") MESSAGE_TYPES_TO_PROCESS = true := rfl
  have hres2 : (JValue.str "event").isStr "result" = false := rfl
  refine ⟨?_, ?_, ?_, ?_, ?_⟩
  · intro payload t ht hstr
    simp [on_message, ht, hstr]
  · intro payload r mid ht hr hm hids
    have houter : strMember (JValue.str "result") MESSAGE_TYPES_TO_PROCESS = true := rfl
    have hres : (JValue.str "result").isStr "result" = true := rfl
    simp [on_message, ht, hr, hm, houter, hres, hids]
  · intro payload m e src serialJ ht hm hev hsrc hsn htable
    simp [on_message, ht, hm, hev, hsrc, hsn, houter2, hres2, htable]
  · intro payload m ev src serialJ ht hm hev hsrc hsn hh
    rcases hh with h | ⟨n, h⟩ | ⟨b, h⟩ <;> subst h <;>
      simp [on_message, ht, hm, hev, hsrc, hsn, houter2, hres2]
  · intro payload m l src serialJ ht hm hev hsrc hsn
    simp [on_message, ht, hm, hev, hsrc, hsn, houter2, hres2]

/-- C4 counterexample: a message without a type field raises a KeyError
(Except.error) out of on_message instead of being silently ignored. -/
theorem on_message_missing_type_raises :
    on_message initState (JValue.obj []) = Except.error () := rfl

/-- Witness for on_message_unrecognized_ignored: an unknown type, an unknown
(non-string) messageId, an unknown string event type, a hashable non-string
event type, and an unhashable (array) event type, each concrete. -/
theorem on_message_unrecognized_ignored_witness :
    on_message initState unknownTypePayload = Except.ok (initState, false) ∧
    on_message initState
      (JValue.obj [("type", JValue.str "result"), ("messageId", JValue.num 3),
                   ("result", JValue.obj [])]) = Except.ok (initState, false) ∧
    on_message initState unknownEventPayload = Except.ok (initState, false) ∧
    on_message initState
      (JValue.obj [("type", JValue.str "event"),
                   ("event", JValue.obj [("event", JValue.num 5),
                     ("source", JValue.str "device"),
                     ("serialNumber", JValue.str "D1")])]) = Except.ok (initState, false) ∧
    on_message initState
      (JValue.obj [("type", JValue.str "event"),
                   ("event", JValue.obj [("event", JValue.arr []),
                     ("source", JValue.str "device"),
                     ("serialNumber", JValue.str "D1")])]) = Except.error () := by
  refine ⟨?_, ?_, ?_, ?_, ?_⟩
  · exact (on_message_unrecognized_ignored initState).1 unknownTypePayload
      (JValue.str "version") rfl rfl
  · exact (on_message_unrecognized_ignored initState).2.1 _ _ (JValue.num 3) rfl rfl rfl rfl
  · exact (on_message_unrecognized_ignored initState).2.2.1 unknownEventPayload _
      "person_not_detected" "device" (JValue.str "D1") rfl rfl rfl rfl rfl rfl
  · exact (on_message_unrecognized_ignored initState).2.2.2.1 _ _ (JValue.num 5) "device"
      (JValue.str "D1") rfl rfl rfl rfl rfl (Or.inr (Or.inl ⟨5, rfl⟩))
  · exact (on_message_unrecognized_ignored initState).2.2.2.2 _ _ [] "device"
      (JValue.str "D1") rfl rfl rfl rfl rfl

/-- C6: an update_live_property call whose serial number is present in the
named collection sets the named property on exactly the first matching entity
record (the first linear-scan match), leaves every other entity record, every
other collection, the cache and the flags unchanged, and writing the same
value twice is idempotent. The hypotheses state the data-model invariant of
the spec: every record of the collection is a dict with a serialNumber key and
at most one record matches the serial. -/
theorem live_property_present_serial_update (st : CoordState)
    (fields : List (String × JValue)) (sources serial_number property_name : String)
    (value : JValue) (pre post : List JValue) (ef : List (String × JValue))
    (hdd : st.data_data = JValue.obj fields)
    (hcoll : alookup fields sources = some (JValue.arr (pre ++ JValue.obj ef :: post)))
    (hpre : ∀ e ∈ pre, entityNoMatch serial_number e)
    (hmatch : ∃ sv, alookup ef "serialNumber" = some sv ∧ sv.isStr serial_number = true)
    (hpost : ∀ e ∈ post, entityNoMatch serial_number e) :
    set_data_value_for_property st sources serial_number property_name value =
      some { st with data_data := JValue.obj (aset fields sources
        (JValue.arr (pre ++ JValue.obj (aset ef property_name value) :: post))) } ∧
    (∀ c, c ≠ sources →
      alookup (aset fields sources
        (JValue.arr (pre ++ JValue.obj (aset ef property_name value) :: post))) c =
      alookup fields c) ∧
    set_data_value_for_property
        { st with data_data := JValue.obj (aset fields sources
          (JValue.arr (pre ++ JValue.obj (aset ef property_name value) :: post))) }
        sources serial_number property_name value =
      some { st with data_data := JValue.obj (aset fields sources
        (JValue.arr (pre ++ JValue.obj (aset ef property_name value) :: post))) } := by
  obtain ⟨sv, hsv, hm⟩ := hmatch
  have hscan := scanEntities_first_match serial_number property_name value pre post ef sv
    hpre hsv hm
  have hlook : alookup (aset fields sources
      (JValue.arr (pre ++ JValue.obj (aset ef property_name value) :: post))) sources =
      some (JValue.arr (pre ++ JValue.obj (aset ef property_name value) :: post)) :=
    alookup_aset_self _ _ _
  have haset2 : aset (aset fields sources
      (JValue.arr (pre ++ JValue.obj (aset ef property_name value) :: post))) sources
      (JValue.arr (pre ++ JValue.obj (aset ef property_name value) :: post)) =
      aset fields sources
        (JValue.arr (pre ++ JValue.obj (aset ef property_name value) :: post)) :=
    aset_eq_self _ _ _ hlook
  refine ⟨?_, ?_, ?_⟩
  · simp [set_data_value_for_property, hdd, hcoll, hscan]
  · intro c hc; exact alookup_aset_ne fields sources c _ hc
  · by_cases hp : property_name = "serialNumber"
    · subst hp
      have hsv2 : alookup (aset ef "serialNumber" value) "serialNumber" = some value :=
        alookup_aset_self _ _ _
      by_cases hv : value.isStr serial_number = true
      · have hscan2 := scanEntities_first_match serial_number "serialNumber" value pre post
          (aset ef "serialNumber" value) value hpre hsv2 hv
        simp [set_data_value_for_property, hlook, hscan2, aset_aset_same, haset2]
      · have hvf : value.isStr serial_number = false := by
          revert hv; cases value.isStr serial_number <;> simp
        have hall : ∀ e ∈ pre ++ JValue.obj (aset ef "serialNumber" value) :: post,
            entityNoMatch serial_number e := by
          intro e he
          rcases List.mem_append.mp he with h1 | h2
          · exact hpre e h1
          rcases List.mem_cons.mp h2 with h3 | h4
          · subst h3; exact ⟨aset ef "serialNumber" value, value, rfl, hsv2, hvf⟩
          · exact hpost e h4
        have hscan3 := scanEntities_no_match serial_number "serialNumber" value _ hall
        simp [set_data_value_for_property, hlook, hscan3, haset2]
    · have hne : "serialNumber" ≠ property_name := fun hh => hp hh.symm
      have hsv3 : alookup (aset ef property_name value) "serialNumber" = some sv :=
        (alookup_aset_ne ef property_name "serialNumber" value hne).trans hsv
      have hscan2 := scanEntities_first_match serial_number property_name value pre post
        (aset ef property_name value) sv hpre hsv3 hm
      simp [set_data_value_for_property, hlook, hscan2, aset_aset_same, haset2]

/-- Witness for live_property_present_serial_update on a concrete two-device
store: the first matching record D1 gains the property, D2 and the stations
collection are untouched, and repeating the write changes nothing. -/
theorem live_property_present_serial_update_witness :
    set_data_value_for_property twoDeviceState "devices" "D1" "motion_detected"
      (JValue.bool true) = some twoDeviceStateUpd ∧
    set_data_value_for_property twoDeviceStateUpd "devices" "D1" "motion_detected"
      (JValue.bool true) = some twoDeviceStateUpd ∧
    alookup (aset twoDeviceFields "devices"
      (JValue.arr [JValue.obj (aset entD1 "motion_detected" (JValue.bool true)),
        JValue.obj entD2])) "stations" = alookup twoDeviceFields "stations" := by
  have h := live_property_present_serial_update twoDeviceState twoDeviceFields "devices"
    "D1" "motion_detected" (JValue.bool true) [] [JValue.obj entD2] entD1 rfl rfl
    (by intro e he; cases he)
    ⟨JValue.str "D1", rfl, rfl⟩
    (by intro e he; simp at he; subst he; exact ⟨entD2, JValue.str "D2", rfl, rfl, rfl⟩)
  exact ⟨h.1, h.2.2, h.2.1 "stations" (by decide)⟩
